import Mathlib

/-!
Verification development for the FileTransferApp peer-to-peer transfer engine.

The definitions below are a shallow embedding of the C++ sources:

* `src/core/transfer_manager.{hpp,cpp}` — transfer registry, status updates,
  send/cancel entry points, and the five inbound message handlers;
* `src/network/protocol.hpp` — the JSON wire codec for the five message
  variants;
* `src/utils/encryption.cpp` — password-based AES-256-GCM encryption.

Machine integers are modelled as `Nat` (none of the verified paths can
overflow `uint64`), byte buffers as `List Nat`, and every external effect
(socket send results, file-system results, the wall clock, randomness)
is made an explicit parameter.  Stateful manager code becomes explicit
state passing on `ManagerState`.
-/

/-- Association-list lookup keyed by strings, mirroring
`std::map::find` / `unordered_map::find`. -/
def lookupA {β : Type} : List (String × β) → String → Option β
  | [], _ => none
  | p :: rest, k => if p.1 = k then some p.2 else lookupA rest k

/-- Insert-or-overwrite, mirroring `map[k] = v` (keys are unique in every
map the manager builds, so overwriting the first occurrence is the map
semantics). -/
def setA {β : Type} : List (String × β) → String → β → List (String × β)
  | [], k, v => [(k, v)]
  | p :: rest, k, v =>
    if p.1 = k then (k, v) :: rest else p :: setA rest k v

/-- Erase a key, mirroring `map.erase(k)`. -/
def eraseA {β : Type} : List (String × β) → String → List (String × β)
  | [], _ => []
  | p :: rest, k => if p.1 = k then eraseA rest k else p :: eraseA rest k

/-- `core::TransferStatus` from `transfer_manager.hpp`. -/
inductive TransferStatus where
  | Initializing
  | Waiting
  | InProgress
  | Completed
  | Failed
  | Canceled
deriving DecidableEq, Repr

/-- The three terminal statuses, i.e. the condition tested at
`transfer_manager.cpp:736-738` before the end time is recorded. -/
def TransferStatus.isTerminal : TransferStatus → Bool
  | .Completed => true
  | .Failed => true
  | .Canceled => true
  | _ => false

/-- `core::TransferDirection` from `transfer_manager.hpp`. -/
inductive TransferDirection where
  | Incoming
  | Outgoing
deriving DecidableEq, Repr

/-- `core::TransferInfo` from `transfer_manager.hpp`.  The source stores
`progress` as a `float`; it is modelled as a rational computed by the same
formula (no claim depends on float rounding).  Timestamps are epoch
milliseconds, always non-negative in the source, hence `Nat`. -/
structure TransferInfo where
  id : String
  peerId : String
  peerName : String
  peerAddress : String
  direction : TransferDirection
  status : TransferStatus
  filePath : String
  fileName : String
  fileSize : Nat
  bytesTransferred : Nat
  progress : Rat
  startTime : Nat
  endTime : Nat
  errorMessage : String
deriving DecidableEq, Repr

/-- `core::PeerInfo` from `discovery_service.hpp`. -/
structure PeerInfo where
  id : String
  name : String
  ipAddress : String
  port : Nat
  platform : String
  version : String
  lastSeen : Nat
deriving DecidableEq, Repr

/-- The mutable state of `core::TransferManager`: the transfer registry
`m_transfers`, the reassembly buffers `m_transferData`, the
`m_transferChunksReceived` counters, `m_downloadDirectory` and
`m_initialized`.  Maps are association lists keyed by transfer id. -/
structure ManagerState where
  initialized : Bool
  downloadDirectory : String
  transfers : List (String × TransferInfo)
  transferData : List (String × List (List Nat))
  transferChunksReceived : List (String × Nat)
deriving DecidableEq, Repr

/-- `TransferManager::updateTransferStatus` (`transfer_manager.cpp:719-749`):
look the transfer up; if absent, log and return; otherwise assign the new
status, overwrite the error message only when one is provided, and set
`endTime` to the current clock exactly when the new status is terminal.
The status callback has no effect on manager state and is elided. -/
def ManagerState.updateTransferStatus (st : ManagerState) (transferId : String)
    (status : TransferStatus) (errorMessage : String) (now : Nat) :
    ManagerState :=
  match lookupA st.transfers transferId with
  | none => st
  | some _ =>
    { st with
      transfers := st.transfers.map (fun p =>
        if p.1 = transferId then
          (p.1,
            { p.2 with
              status := status
              errorMessage :=
                if errorMessage = "" then p.2.errorMessage else errorMessage
              endTime := if status.isTerminal then now else p.2.endTime })
        else p) }

/-- `TransferManager::updateTransferProgress` (`transfer_manager.cpp:694-717`). -/
def ManagerState.updateTransferProgress (st : ManagerState)
    (transferId : String) (bytesTransferred : Nat) : ManagerState :=
  match lookupA st.transfers transferId with
  | none => st
  | some _ =>
    { st with
      transfers := st.transfers.map (fun p =>
        if p.1 = transferId then
          (p.1,
            { p.2 with
              bytesTransferred := bytesTransferred
              progress :=
                if p.2.fileSize > 0 then
                  (bytesTransferred : Rat) / (p.2.fileSize : Rat) * 100
                else 100 })
        else p) }

/-- `TransferManager::processTransferCancel` (`transfer_manager.cpp:761-775`):
unknown ids are ignored, otherwise the status becomes `Canceled` with the
peer's reason.  Note that the reassembly buffer maps are not touched. -/
def ManagerState.processTransferCancel (st : ManagerState)
    (transferId reason : String) (now : Nat) : ManagerState :=
  match lookupA st.transfers transferId with
  | none => st
  | some _ =>
    st.updateTransferStatus transferId .Canceled
      ("Canceled by peer: " ++ reason) now

/-- `TransferManager::processTransferComplete` (`transfer_manager.cpp:777-805`).
No check of the current status is performed before the terminal status is
assigned. -/
def ManagerState.processTransferComplete (st : ManagerState)
    (transferId : String) (success : Bool) (now : Nat) : ManagerState :=
  match lookupA st.transfers transferId with
  | none => st
  | some transfer =>
    if success then
      if transfer.direction = .Incoming then
        (st.updateTransferProgress transferId
          transfer.fileSize).updateTransferStatus transferId .Completed "" now
      else
        st.updateTransferStatus transferId .Completed "" now
    else
      st.updateTransferStatus transferId .Failed
        "Transfer failed on the remote side" now

/-- `network::TransferRequestMessage` from `protocol.hpp`. -/
structure TransferRequestMsg where
  transferId : String
  senderId : String
  senderName : String
  fileName : String
  fileSize : Nat
  fileHash : String
deriving DecidableEq, Repr

/-- `network::FileDataMessage` from `protocol.hpp`; `data` is the raw byte
vector. -/
structure FileDataMsg where
  transferId : String
  chunkIndex : Nat
  totalChunks : Nat
  data : List Nat
deriving DecidableEq, Repr

/-- `TransferManager::processTransferRequest` (`transfer_manager.cpp:405-479`).
`accepted` is the decision produced by the collaborator's request callback
(`true` when no callback is registered), `sendResult` the integer resolved by
`sendTcp` for the response message.  The source leaves `filePath` empty
(the `getUniqueFilename` call is commented out). -/
def ManagerState.processTransferRequest (st : ManagerState)
    (request : TransferRequestMsg) (endpoint : String) (accepted : Bool)
    (sendResult : Int) (now : Nat) : ManagerState :=
  let transfer : TransferInfo :=
    { id := request.transferId
      peerId := request.senderId
      peerName := request.senderName
      peerAddress := endpoint
      direction := .Incoming
      status := .Waiting
      filePath := ""
      fileName := request.fileName
      fileSize := request.fileSize
      bytesTransferred := 0
      progress := 0
      startTime := now
      endTime := 0
      errorMessage := "" }
  let st1 := { st with transfers := setA st.transfers request.transferId transfer }
  if sendResult < 0 then
    st1.updateTransferStatus request.transferId .Failed
      "Failed to send transfer response" now
  else if accepted then
    st1.updateTransferStatus request.transferId .Waiting
      "Waiting for file data" now
  else
    st1.updateTransferStatus request.transferId .Canceled
      "Transfer rejected by user" now

/-- Registry effect of `TransferManager::processTransferResponse`
(`transfer_manager.cpp:482-501`): rejection cancels the transfer, acceptance
marks it `InProgress` and spawns the chunking task (whose message stream is
modelled by `transferThreadChunks` below).  No check of the current status is
performed. -/
def ManagerState.processTransferResponse (st : ManagerState)
    (transferId : String) (accepted : Bool) (now : Nat) : ManagerState :=
  match lookupA st.transfers transferId with
  | none => st
  | some _ =>
    if !accepted then
      st.updateTransferStatus transferId .Canceled
        "Transfer rejected by recipient" now
    else
      st.updateTransferStatus transferId .InProgress "" now

/-- `TransferManager::cancelTransfer` (`transfer_manager.cpp:234-283`).
`sendThrows` tells whether serializing/sending the `TransferCancel` message
threw (`errText` is the exception text); the send's integer result itself is
waited for and discarded by the source, so it does not appear. -/
def ManagerState.cancelTransfer (st : ManagerState) (transferId : String)
    (sendThrows : Bool) (errText : String) (now : Nat) :
    Bool × ManagerState :=
  if !st.initialized then (false, st)
  else
    match lookupA st.transfers transferId with
    | none => (false, st)
    | some transfer =>
      if transfer.status ≠ .InProgress ∧ transfer.status ≠ .Initializing ∧
          transfer.status ≠ .Waiting then
        (false, st)
      else if sendThrows then
        (true, st.updateTransferStatus transferId .Canceled
          ("Canceled by user (error: " ++ errText ++ ")") now)
      else
        (true, st.updateTransferStatus transferId .Canceled
          "Canceled by user" now)

/-- `TransferManager::sendFile` (`transfer_manager.cpp:137-231`), with
`TransferManager::connectToPeer` (`transfer_manager.cpp:640-668`) inlined:
the connection is considered established when some registered transfer
already uses the peer's endpoint, otherwise when `connectTcp` (result
`connectResult`) succeeds.  `fileExistsRes` is the `fileExists` result,
`fileInfoName`/`fileInfoSize` the `getFileInfo` metadata, `sendResult` the
`sendTcp` result for the request, and `newTransferId` the id produced by
`generateTransferId`. -/
def ManagerState.sendFile (st : ManagerState) (peers : List PeerInfo)
    (fileExistsRes : Bool) (peerId filePath : String) (fileInfoName : String)
    (fileInfoSize : Nat) (connectResult : Bool) (sendResult : Int)
    (newTransferId : String) (now : Nat) : String × ManagerState :=
  if !st.initialized then ("", st)
  else if !fileExistsRes then ("", st)
  else
    match peers.find? (fun p => p.id == peerId) with
    | none => ("", st)
    | some peer =>
      let endpoint := peer.ipAddress ++ ":" ++ toString peer.port
      let connected :=
        st.transfers.any (fun p => p.2.peerAddress == endpoint) || connectResult
      if !connected then ("", st)
      else
        let transfer : TransferInfo :=
          { id := newTransferId
            peerId := peerId
            peerName := peer.name
            peerAddress := endpoint
            direction := .Outgoing
            status := .Initializing
            filePath := filePath
            fileName := fileInfoName
            fileSize := fileInfoSize
            bytesTransferred := 0
            progress := 0
            startTime := now
            endTime := 0
            errorMessage := "" }
        let st1 :=
          { st with transfers := setA st.transfers newTransferId transfer }
        if sendResult < 0 then
          ("", st1.updateTransferStatus newTransferId .Failed
            "Failed to send transfer request" now)
        else
          (newTransferId,
            st1.updateTransferStatus newTransferId .Waiting "" now)

/-- The catch block of `TransferManager::processFileData`
(`transfer_manager.cpp:963-986`): mark the transfer `Failed`, send a
`TransferCancel` to the peer (no state effect), and erase the reassembly
buffer and counter. -/
def ManagerState.fileDataErrorCleanup (st : ManagerState)
    (transferId what : String) (now : Nat) : ManagerState :=
  let st1 := st.updateTransferStatus transferId .Failed
    ("Error processing file data: " ++ what) now
  { st1 with
    transferData := eraseA st1.transferData transferId
    transferChunksReceived := eraseA st1.transferChunksReceived transferId }

/-- Tail of `TransferManager::processFileData` after the chunk has been
stored (`transfer_manager.cpp:864-961`): recompute progress from the chunk
counters and, when every chunk has been counted, reassemble, erase the
buffers, write the file (`writeOk`), send `TransferComplete`
(`sendResult`) and mark the transfer `Completed`.  The source computes the
intermediate `bytesTransferred` with `double` arithmetic; the rational
value below uses the same formula truncated to `Nat`, and no claim depends
on its rounding. -/
def ManagerState.fileDataAfterStore (st : ManagerState) (transferId : String)
    (writeOk : Bool) (sendResult : Int) (now : Nat) : ManagerState :=
  let chunksReceived := (lookupA st.transferChunksReceived transferId).getD 0
  let totalChunks :=
    ((lookupA st.transferData transferId).map List.length).getD 0
  let fileSize :=
    ((lookupA st.transfers transferId).map (fun t => t.fileSize)).getD 0
  let bytesTransferred :=
    if totalChunks > 0 then chunksReceived * fileSize / totalChunks else 0
  let st1 := st.updateTransferProgress transferId bytesTransferred
  if chunksReceived = totalChunks then
    let st2 :=
      { st1 with
        transferData := eraseA st1.transferData transferId
        transferChunksReceived := eraseA st1.transferChunksReceived transferId }
    if !writeOk then
      st2.fileDataErrorCleanup transferId
        "Failed to write file" now
    else if sendResult < 0 then
      st2.updateTransferStatus transferId .Failed
        "Failed to send completion acknowledgment" now
    else
      (st2.updateTransferProgress transferId fileSize).updateTransferStatus
        transferId .Completed "" now
  else st1

/-- `TransferManager::processFileData` (`transfer_manager.cpp:807-987`).
`resolvedFileName` is the name returned by `getUniqueFilename`, `writeOk`
the `writeFile` result, `sendResult` the `sendTcp` result for the
`TransferComplete` acknowledgment.  Chunk index `0` reinitializes the
reassembly buffer to `totalChunks` empty slots (overwriting any existing
buffer) and stores its payload in slot `0`; other indices require an
existing buffer and an in-range index, else the handler takes the error
path; a stored chunk overwrites whatever the slot held and increments the
received counter. -/
def ManagerState.processFileData (st : ManagerState) (fileData : FileDataMsg)
    (resolvedFileName : String) (writeOk : Bool) (sendResult : Int)
    (now : Nat) : ManagerState :=
  match lookupA st.transfers fileData.transferId with
  | none => st
  | some transfer =>
    if transfer.direction ≠ .Incoming then st
    else if fileData.chunkIndex = 0 then
      let st1 :=
        if transfer.filePath = "" then
          { st with
            transfers := st.transfers.map (fun p =>
              if p.1 = fileData.transferId then
                (p.1, { p.2 with
                  filePath := st.downloadDirectory ++ "/" ++ resolvedFileName })
              else p) }
        else st
      let st2 := st1.updateTransferStatus fileData.transferId .InProgress "" now
      let st3 :=
        { st2 with
          transferData := setA st2.transferData fileData.transferId
            (List.set (List.replicate fileData.totalChunks []) 0 fileData.data)
          transferChunksReceived :=
            setA st2.transferChunksReceived fileData.transferId 1 }
      st3.fileDataAfterStore fileData.transferId writeOk sendResult now
    else
      match lookupA st.transferData fileData.transferId with
      | none =>
        st.fileDataErrorCleanup fileData.transferId
          "Invalid chunk index or transfer data not initialized" now
      | some slots =>
        if fileData.chunkIndex ≥ slots.length then
          st.fileDataErrorCleanup fileData.transferId
            "Invalid chunk index or transfer data not initialized" now
        else
          let st3 :=
            { st with
              transferData := setA st.transferData fileData.transferId
                (slots.set fileData.chunkIndex fileData.data)
              transferChunksReceived := setA st.transferChunksReceived
                fileData.transferId
                ((lookupA st.transferChunksReceived fileData.transferId).getD 0
                  + 1) }
          st3.fileDataAfterStore fileData.transferId writeOk sendResult now

/-- Chunk size of the sender's chunking task
(`transfer_manager.cpp:541`, `constexpr std::size_t chunkSize = 1024 * 1024`). -/
def chunkSize : Nat := 1024 * 1024

/-- `totalChunks` as computed by the chunking task
(`transfer_manager.cpp:542`). -/
def totalChunksFor (n : Nat) : Nat := (n + chunkSize - 1) / chunkSize

/-- One chunk payload of the chunking task (`transfer_manager.cpp:557-563`):
bytes `[startPos, endPos)` of the buffer with
`endPos = min(startPos + chunkSize, size)`. -/
def chunkPayload (fileData : List Nat) (i : Nat) : List Nat :=
  let startPos := i * chunkSize
  let endPos := min (startPos + chunkSize) fileData.length
  (fileData.drop startPos).take (endPos - startPos)

/-- The `FileData` messages emitted by an uninterrupted run of the chunking
task spawned in `TransferManager::processTransferResponse`
(`transfer_manager.cpp:540-592`): one message per loop iteration
`i ∈ [0, totalChunks)`. -/
def transferThreadChunks (transferId : String) (fileData : List Nat) :
    List FileDataMsg :=
  (List.range (totalChunksFor fileData.length)).map (fun i =>
    { transferId := transferId
      chunkIndex := i
      totalChunks := totalChunksFor fileData.length
      data := chunkPayload fileData i })

/-- `network::TransferResponseMessage` from `protocol.hpp`. -/
structure TransferResponseMsg where
  transferId : String
  accepted : Bool
  receiverId : String
  receiverName : String
  filePath : String
deriving DecidableEq, Repr

/-- `network::TransferCompleteMessage` from `protocol.hpp`. -/
structure TransferCompleteMsg where
  transferId : String
  success : Bool
  fileHash : String
deriving DecidableEq, Repr

/-- `network::TransferCancelMessage` from `protocol.hpp`. -/
structure TransferCancelMsg where
  transferId : String
  reason : String
deriving DecidableEq, Repr

/-- The tagged union of the five protocol messages (the source uses a class
hierarchy rooted at `network::Message`, discriminated by
`network::MessageType`). -/
inductive Msg where
  | request : TransferRequestMsg → Msg
  | response : TransferResponseMsg → Msg
  | fileData : FileDataMsg → Msg
  | complete : TransferCompleteMsg → Msg
  | cancel : TransferCancelMsg → Msg
deriving DecidableEq, Repr

/-- The integer value of `network::MessageType` for each variant
(declaration order in `protocol.hpp:13-19`). -/
def Msg.typeTag : Msg → Nat
  | .request _ => 0
  | .response _ => 1
  | .fileData _ => 2
  | .complete _ => 3
  | .cancel _ => 4

/-- A JSON value tree as built by the `toJson` methods (`nlohmann::json`).
All numbers appearing in the protocol messages are non-negative integers. -/
inductive Json where
  | null
  | bool (b : Bool)
  | num (n : Nat)
  | str (s : String)
  | arr (xs : List Json)
  | obj (fields : List (String × Json))

/-- Big-endian byte expansion on `k` bytes. -/
def beBytes : Nat → Nat → List Nat
  | 0, _ => []
  | k + 1, n => beBytes k (n / 256) ++ [n % 256]

/-- CBOR encoding of one unsigned integer (major type 0), as produced by
`nlohmann::json::to_cbor` for array elements. -/
def cborUnsigned (n : Nat) : List Nat :=
  if n < 24 then [n]
  else if n < 256 then [24, n]
  else if n < 65536 then [25] ++ beBytes 2 n
  else if n < 4294967296 then [26] ++ beBytes 4 n
  else [27] ++ beBytes 8 n

/-- CBOR array header (major type 4) for an array of `n` elements. -/
def cborArrayHeader (n : Nat) : List Nat :=
  if n < 24 then [128 + n]
  else if n < 256 then [152, n]
  else if n < 65536 then [153] ++ beBytes 2 n
  else if n < 4294967296 then [154] ++ beBytes 4 n
  else [155] ++ beBytes 8 n

/-- `nlohmann::json::to_cbor` applied to a `std::vector<uint8_t>`: the vector
converts to a JSON array of numbers, whose CBOR encoding is the array header
followed by the element encodings. -/
def toCbor (data : List Nat) : List Nat :=
  cborArrayHeader data.length ++ (data.map cborUnsigned).flatten

/-- Decode one CBOR unsigned integer, returning the remaining bytes. -/
def cborReadUint : List Nat → Option (Nat × List Nat)
  | [] => none
  | b :: rest =>
    if b < 24 then some (b, rest)
    else if b == 24 then
      match rest with
      | x :: r => some (x, r)
      | [] => none
    else if b == 25 then
      match rest with
      | x :: y :: r => some (x * 256 + y, r)
      | _ => none
    else if b == 26 then
      match rest with
      | x :: y :: z :: w :: r =>
        some (((x * 256 + y) * 256 + z) * 256 + w, r)
      | _ => none
    else none

/-- Decode `k` consecutive CBOR unsigned integers. -/
def cborReadElems : Nat → List Nat → Option (List Nat × List Nat)
  | 0, rest => some ([], rest)
  | k + 1, rest =>
    match cborReadUint rest with
    | none => none
    | some (x, r1) =>
      match cborReadElems k r1 with
      | none => none
      | some (xs, r2) => some (x :: xs, r2)

/-- `nlohmann::json::from_cbor` restricted to what the codec can feed it: a
CBOR array of unsigned integers; anything else is a parse error. -/
def fromCbor (bytes : List Nat) : Except String (List Nat) :=
  match bytes with
  | [] => Except.error "cbor parse error"
  | b :: rest =>
    let count? : Option (Nat × List Nat) :=
      if 128 ≤ b && b < 152 then some (b - 128, rest)
      else if b == 152 then
        match rest with
        | x :: r => some (x, r)
        | [] => none
      else if b == 153 then
        match rest with
        | x :: y :: r => some (x * 256 + y, r)
        | _ => none
      else none
    match count? with
    | none => Except.error "cbor parse error"
    | some (count, r) =>
      match cborReadElems count r with
      | some (xs, []) => Except.ok xs
      | _ => Except.error "cbor parse error"

/-- Field access `j["k"]` on the parsed object, as used by the `fromJson`
methods. -/
def Json.get? (j : Json) (k : String) : Except String Json :=
  match j with
  | .obj fields =>
    match lookupA fields k with
    | some v => Except.ok v
    | none => Except.error ("missing field " ++ k)
  | _ => Except.error "not an object"

/-- `j["k"].get<std::string>()`: a `nlohmann::json::type_error` is raised when
the field holds a non-string value. -/
def Json.getStr (j : Json) (k : String) : Except String String :=
  match j.get? k with
  | .ok (.str s) => Except.ok s
  | .ok _ => Except.error ("type must be string for field " ++ k)
  | .error e => Except.error e

/-- `j["k"].get<unsigned integral>()`. -/
def Json.getNat (j : Json) (k : String) : Except String Nat :=
  match j.get? k with
  | .ok (.num n) => Except.ok n
  | .ok _ => Except.error ("type must be number for field " ++ k)
  | .error e => Except.error e

/-- `j["k"].get<bool>()`. -/
def Json.getBool (j : Json) (k : String) : Except String Bool :=
  match j.get? k with
  | .ok (.bool b) => Except.ok b
  | .ok _ => Except.error ("type must be boolean for field " ++ k)
  | .error e => Except.error e

/-- `TransferRequestMessage::toJson` (`protocol.hpp:57-65`), with the base
`Message::toJson` fields first. -/
def TransferRequestMsg.toJson (m : TransferRequestMsg) : Json :=
  .obj [("type", .num 0), ("transferId", .str m.transferId),
    ("senderId", .str m.senderId), ("senderName", .str m.senderName),
    ("fileName", .str m.fileName), ("fileSize", .num m.fileSize),
    ("fileHash", .str m.fileHash)]

/-- `TransferResponseMessage::toJson` (`protocol.hpp:91-98`). -/
def TransferResponseMsg.toJson (m : TransferResponseMsg) : Json :=
  .obj [("type", .num 1), ("transferId", .str m.transferId),
    ("accepted", .bool m.accepted), ("receiverId", .str m.receiverId),
    ("receiverName", .str m.receiverName), ("filePath", .str m.filePath)]

/-- `FileDataMessage::toJson` (`protocol.hpp:121-133`): the byte vector is
CBOR-encoded and the resulting `std::vector<uint8_t>` is assigned to
`j["data"]`, which stores it as a JSON array of numbers, not as a string. -/
def FileDataMsg.toJson (m : FileDataMsg) : Json :=
  .obj [("type", .num 2), ("transferId", .str m.transferId),
    ("chunkIndex", .num m.chunkIndex), ("totalChunks", .num m.totalChunks),
    ("data", .arr ((toCbor m.data).map Json.num))]

/-- `TransferCompleteMessage::toJson` (`protocol.hpp:158-163`). -/
def TransferCompleteMsg.toJson (m : TransferCompleteMsg) : Json :=
  .obj [("type", .num 3), ("transferId", .str m.transferId),
    ("success", .bool m.success), ("fileHash", .str m.fileHash)]

/-- `TransferCancelMessage::toJson` (`protocol.hpp:182-186`). -/
def TransferCancelMsg.toJson (m : TransferCancelMsg) : Json :=
  .obj [("type", .num 4), ("transferId", .str m.transferId),
    ("reason", .str m.reason)]

/-- `TransferRequestMessage::fromJson` (`protocol.hpp:67-74`). -/
def TransferRequestMsg.fromJson (j : Json) : Except String TransferRequestMsg := do
  let transferId ← j.getStr "transferId"
  let senderId ← j.getStr "senderId"
  let senderName ← j.getStr "senderName"
  let fileName ← j.getStr "fileName"
  let fileSize ← j.getNat "fileSize"
  let fileHash ← j.getStr "fileHash"
  return { transferId, senderId, senderName, fileName, fileSize, fileHash }

/-- `TransferResponseMessage::fromJson` (`protocol.hpp:100-106`). -/
def TransferResponseMsg.fromJson (j : Json) :
    Except String TransferResponseMsg := do
  let transferId ← j.getStr "transferId"
  let accepted ← j.getBool "accepted"
  let receiverId ← j.getStr "receiverId"
  let receiverName ← j.getStr "receiverName"
  let filePath ← j.getStr "filePath"
  return { transferId, accepted, receiverId, receiverName, filePath }

/-- `FileDataMessage::fromJson` (`protocol.hpp:135-144`): the `data` field is
read with `get<std::string>()` (raising a type error when it is not a
string) and the string's bytes are then CBOR-decoded. -/
def FileDataMsg.fromJson (j : Json) : Except String FileDataMsg := do
  let transferId ← j.getStr "transferId"
  let chunkIndex ← j.getNat "chunkIndex"
  let totalChunks ← j.getNat "totalChunks"
  let base64Data ← j.getStr "data"
  let data ← fromCbor (base64Data.toList.map Char.toNat)
  return { transferId, chunkIndex, totalChunks, data }

/-- `TransferCompleteMessage::fromJson` (`protocol.hpp:165-169`). -/
def TransferCompleteMsg.fromJson (j : Json) :
    Except String TransferCompleteMsg := do
  let transferId ← j.getStr "transferId"
  let success ← j.getBool "success"
  let fileHash ← j.getStr "fileHash"
  return { transferId, success, fileHash }

/-- `TransferCancelMessage::fromJson` (`protocol.hpp:188-191`). -/
def TransferCancelMsg.fromJson (j : Json) : Except String TransferCancelMsg := do
  let transferId ← j.getStr "transferId"
  let reason ← j.getStr "reason"
  return { transferId, reason }

namespace Protocol

/-- `Protocol::serialize` (`protocol.hpp:205-214`) up to the JSON value tree:
the source additionally dumps the tree to its textual form, and
`Protocol::deserialize` parses that text back with `nlohmann::json::parse`;
`dump`/`parse` are an exact inverse pair on these trees, so the byte layer
is elided and the codec is composed at the tree level. -/
def serialize (m : Msg) : Json :=
  match m with
  | .request r => r.toJson
  | .response r => r.toJson
  | .fileData r => r.toJson
  | .complete r => r.toJson
  | .cancel r => r.toJson

/-- `Protocol::deserialize` (`protocol.hpp:216-258`): read the `type`
discriminator, construct the matching variant and fill it with its
`fromJson`; unknown types raise. -/
def deserialize (j : Json) : Except String Msg := do
  let type ← j.getNat "type"
  match type with
  | 0 => (TransferRequestMsg.fromJson j).map Msg.request
  | 1 => (TransferResponseMsg.fromJson j).map Msg.response
  | 2 => (FileDataMsg.fromJson j).map Msg.fileData
  | 3 => (TransferCompleteMsg.fromJson j).map Msg.complete
  | 4 => (TransferCancelMsg.fromJson j).map Msg.cancel
  | _ => Except.error "Unknown message type"

end Protocol

/-- The mbedTLS primitives used by `utils::Encryption`
(`encryption.cpp`): PBKDF2-HMAC-SHA256 key derivation
(`mbedtls_pkcs5_pbkdf2_hmac`, which either fails or fills exactly the
requested number of bytes) and one-shot AES-GCM with a 16-byte tag
(`mbedtls_gcm_crypt_and_tag` / `mbedtls_gcm_auth_decrypt`).  They are
third-party library code, kept abstract; the correctness facts the claims
rely on are stated as explicit hypotheses below. -/
structure CryptoPrimitives where
  pbkdf2HmacSha256 : String → List Nat → Nat → Nat → Option (List Nat)
  gcmCryptAndTag : List Nat → List Nat → List Nat → List Nat × List Nat
  gcmAuthDecrypt : List Nat → List Nat → List Nat → List Nat →
    Option (List Nat)

/-- `mbedtls_pkcs5_pbkdf2_hmac` writes exactly `keyLen` output bytes when it
succeeds. -/
def Pbkdf2LengthOk (P : CryptoPrimitives) : Prop :=
  ∀ pw salt iters n out, P.pbkdf2HmacSha256 pw salt iters n = some out →
    out.length = n

/-- GCM encryption is length-preserving and produces a 16-byte tag. -/
def GcmLengthOk (P : CryptoPrimitives) : Prop :=
  ∀ key iv pt, (P.gcmCryptAndTag key iv pt).1.length = pt.length ∧
    (P.gcmCryptAndTag key iv pt).2.length = 16

/-- GCM decryption inverts GCM encryption under the same key, IV and tag. -/
def GcmRoundTripOk (P : CryptoPrimitives) : Prop :=
  ∀ key iv pt,
    P.gcmAuthDecrypt key iv (P.gcmCryptAndTag key iv pt).2
      (P.gcmCryptAndTag key iv pt).1 = some pt

namespace Encryption

/-- Key, IV and tag sizes (`encryption.cpp:23-25`); the salt is 8 bytes
(`encryption.cpp:56`). -/
def KEY_SIZE : Nat := 32

/-- 96-bit IV, recommended for GCM (`encryption.cpp:24`). -/
def IV_SIZE : Nat := 12

/-- 128-bit authentication tag (`encryption.cpp:25`). -/
def TAG_SIZE : Nat := 16

/-- `Encryption::deriveKeyAndIV` (`encryption.cpp:307-354`): PBKDF2-HMAC-
SHA256 with 10000 iterations producing 44 bytes, split as key(32) and
iv(12). -/
def deriveKeyAndIV (P : CryptoPrimitives) (password : String)
    (salt : List Nat) : Option (List Nat × List Nat) :=
  match P.pbkdf2HmacSha256 password salt 10000 (KEY_SIZE + IV_SIZE) with
  | none => none
  | some output =>
    some (output.take KEY_SIZE, (output.drop KEY_SIZE).take IV_SIZE)

/-- `Encryption::encrypt` (`encryption.cpp:47-145`).  The fresh 8-byte random
salt drawn from the CTR-DRBG is passed in explicitly as `salt`.  On success
the output blob is `salt ++ iv ++ ciphertext ++ tag`. -/
def encrypt (P : CryptoPrimitives) (plaintext : List Nat) (password : String)
    (salt : List Nat) : Option (List Nat) :=
  match deriveKeyAndIV P password salt with
  | none => none
  | some (key, iv) =>
    let enc := P.gcmCryptAndTag key iv plaintext
    some (salt ++ iv ++ enc.1 ++ enc.2)

/-- `Encryption::decrypt` (`encryption.cpp:147-215`): reject blobs shorter
than `8 + IV_SIZE + TAG_SIZE = 36` bytes, slice the four regions, re-derive
the key from the embedded salt (the derived IV is computed but the embedded
IV is the one passed to GCM, as in the source), and authenticate-decrypt. -/
def decrypt (P : CryptoPrimitives) (ciphertext : List Nat)
    (password : String) : Option (List Nat) :=
  if ciphertext.length < 8 + IV_SIZE + TAG_SIZE then none
  else
    let salt := ciphertext.take 8
    let iv := (ciphertext.drop 8).take IV_SIZE
    let ciphertextOffset := 8 + IV_SIZE
    let ciphertextSize := ciphertext.length - ciphertextOffset - TAG_SIZE
    let tag := ciphertext.drop (ciphertext.length - TAG_SIZE)
    let body := (ciphertext.drop ciphertextOffset).take ciphertextSize
    match deriveKeyAndIV P password salt with
    | none => none
    | some (key, _derivedIV) => P.gcmAuthDecrypt key iv tag body

end Encryption

/-- A registered outgoing transfer (as created by `sendFile`, already moved
to `Waiting`) used by the concrete runs below. -/
def sampleOutgoing : TransferInfo :=
  { id := "t1"
    peerId := "peer-a"
    peerName := "Alice"
    peerAddress := "10.0.0.2:34568"
    direction := .Outgoing
    status := .Waiting
    filePath := "/tmp/f.bin"
    fileName := "f.bin"
    fileSize := 4
    bytesTransferred := 0
    progress := 0
    startTime := 50
    endTime := 0
    errorMessage := "" }

/-- Manager holding the sample outgoing transfer. -/
def sampleState0 : ManagerState :=
  { initialized := true
    downloadDirectory := "/dl"
    transfers := [("t1", sampleOutgoing)]
    transferData := []
    transferChunksReceived := [] }

/-- `cancelTransfer` applied to the waiting outgoing transfer at time 100. -/
def sampleStateCanceled : ManagerState :=
  (sampleState0.cancelTransfer "t1" false "" 100).2

/-- A `TransferComplete{success=true}` from the peer arriving at time 200,
after the local cancellation. -/
def sampleStateLateComplete : ManagerState :=
  sampleStateCanceled.processTransferComplete "t1" true 200

/-- An inbound transfer request for a 2-byte file split in two chunks. -/
def inboundRequest : TransferRequestMsg :=
  { transferId := "t2"
    senderId := "peer-b"
    senderName := "Bob"
    fileName := "g.bin"
    fileSize := 2
    fileHash := "" }

/-- Empty manager accepting `inboundRequest` (response send succeeds). -/
def inState1 : ManagerState :=
  (ManagerState.mk true "/dl" [] [] []).processTransferRequest inboundRequest
    "10.0.0.3:40000" true 0 60

/-- First chunk of two arrives: buffer created, status `InProgress`. -/
def inState2 : ManagerState :=
  inState1.processFileData
    { transferId := "t2", chunkIndex := 0, totalChunks := 2, data := [7] }
    "g.bin" true 0 70

/-- The peer cancels at time 80: terminal status, buffers untouched. -/
def inState3 : ManagerState :=
  inState2.processTransferCancel "t2" "stop" 80

/-- A duplicate chunk 0 arrives after the cancellation at time 90. -/
def inState4 : ManagerState :=
  inState3.processFileData
    { transferId := "t2", chunkIndex := 0, totalChunks := 2, data := [9] }
    "g.bin" true 0 90

/-- A registered incoming transfer for a 4-chunk file, used to exhibit a
duplicate chunk index rewriting a reassembly slot. -/
def dupIncoming : TransferInfo :=
  { id := "t3"
    peerId := "peer-c"
    peerName := "Carol"
    peerAddress := "10.0.0.4:40000"
    direction := .Incoming
    status := .Waiting
    filePath := "/dl/h.bin"
    fileName := "h.bin"
    fileSize := 4
    bytesTransferred := 0
    progress := 0
    startTime := 5
    endTime := 0
    errorMessage := "" }

/-- Manager holding the 4-chunk incoming transfer. -/
def dupState0 : ManagerState :=
  { initialized := true
    downloadDirectory := "/dl"
    transfers := [("t3", dupIncoming)]
    transferData := []
    transferChunksReceived := [] }

/-- Chunk 0 of 4. -/
def dupState1 : ManagerState :=
  dupState0.processFileData
    { transferId := "t3", chunkIndex := 0, totalChunks := 4, data := [1] }
    "h.bin" true 0 10

/-- Chunk 1 of 4 with payload `[5]`. -/
def dupState2 : ManagerState :=
  dupState1.processFileData
    { transferId := "t3", chunkIndex := 1, totalChunks := 4, data := [5] }
    "h.bin" true 0 11

/-- Chunk 1 again with payload `[7]`: the slot is rewritten. -/
def dupState3 : ManagerState :=
  dupState2.processFileData
    { transferId := "t3", chunkIndex := 1, totalChunks := 4, data := [7] }
    "h.bin" true 0 12

/-- A concrete instantiation of the mbedTLS primitives used to witness the
conditional crypto theorems: derivation always yields zero bytes, the
cipher is the identity and the tag is sixteen zero bytes, checked on
decryption. -/
def toyCrypto : CryptoPrimitives :=
  { pbkdf2HmacSha256 := fun _ _ _ n => some (List.replicate n 0)
    gcmCryptAndTag := fun _ _ pt => (pt, List.replicate 16 0)
    gcmAuthDecrypt := fun _ _ tag ct =>
      if tag = List.replicate 16 0 then some ct else none }

theorem lookupA_setA_self {β : Type} (m : List (String × β)) (k : String)
    (v : β) : lookupA (setA m k v) k = some v := by
  induction m with
  | nil => simp [setA, lookupA]
  | cons p rest ih =>
    by_cases h : p.1 = k
    · simp [setA, h, lookupA]
    · simp [setA, h, lookupA, ih]

theorem lookupA_setA_ne {β : Type} (m : List (String × β)) (k k' : String)
    (v : β) (h : k' ≠ k) : lookupA (setA m k v) k' = lookupA m k' := by
  have hk : ¬ k = k' := fun he => h he.symm
  induction m with
  | nil => simp [setA, lookupA, hk]
  | cons p rest ih =>
    by_cases h1 : p.1 = k
    · simp [setA, h1, lookupA, hk]
    · simp [setA, h1, lookupA, ih]

theorem lookupA_eraseA_self {β : Type} (m : List (String × β)) (k : String) :
    lookupA (eraseA m k) k = none := by
  induction m with
  | nil => simp [eraseA, lookupA]
  | cons p rest ih =>
    by_cases h : p.1 = k
    · simpa [eraseA, h] using ih
    · simpa [eraseA, h, lookupA] using ih

theorem lookupA_eraseA_ne {β : Type} (m : List (String × β)) (k k' : String)
    (h : k' ≠ k) : lookupA (eraseA m k) k' = lookupA m k' := by
  have hkk : ¬ k = k' := fun he => h he.symm
  induction m with
  | nil => simp [eraseA, lookupA]
  | cons p rest ih =>
    by_cases h1 : p.1 = k
    · simpa [eraseA, h1, lookupA, hkk] using ih
    · simp [eraseA, h1, lookupA, ih]

theorem lookupA_mapIte_self {β : Type} (m : List (String × β)) (k : String)
    (g : β → β) :
    lookupA (m.map fun p => if p.1 = k then (p.1, g p.2) else p) k =
      (lookupA m k).map g := by
  induction m with
  | nil => simp [lookupA]
  | cons p rest ih =>
    by_cases h : p.1 = k
    · simp [lookupA, h]
    · simp [lookupA, h, ih]

theorem lookupA_mapIte_ne {β : Type} (m : List (String × β)) (k k' : String)
    (g : β → β) (h : k' ≠ k) :
    lookupA (m.map fun p => if p.1 = k then (p.1, g p.2) else p) k' =
      lookupA m k' := by
  have hkk : ¬ k = k' := fun he => h he.symm
  induction m with
  | nil => simp [lookupA]
  | cons p rest ih =>
    by_cases h1 : p.1 = k
    · simp [lookupA, h1, hkk, ih]
    · simp [lookupA, h1, ih]

theorem updateTransferStatus_transferData (st : ManagerState)
    (transferId : String) (s : TransferStatus) (msg : String) (now : Nat) :
    (st.updateTransferStatus transferId s msg now).transferData =
      st.transferData := by
  unfold ManagerState.updateTransferStatus
  cases lookupA st.transfers transferId <;> rfl

theorem updateTransferStatus_chunksReceived (st : ManagerState)
    (transferId : String) (s : TransferStatus) (msg : String) (now : Nat) :
    (st.updateTransferStatus transferId s msg now).transferChunksReceived =
      st.transferChunksReceived := by
  unfold ManagerState.updateTransferStatus
  cases lookupA st.transfers transferId <;> rfl

theorem updateTransferProgress_transferData (st : ManagerState)
    (transferId : String) (bytes : Nat) :
    (st.updateTransferProgress transferId bytes).transferData =
      st.transferData := by
  unfold ManagerState.updateTransferProgress
  cases lookupA st.transfers transferId <;> rfl

theorem updateTransferProgress_chunksReceived (st : ManagerState)
    (transferId : String) (bytes : Nat) :
    (st.updateTransferProgress transferId bytes).transferChunksReceived =
      st.transferChunksReceived := by
  unfold ManagerState.updateTransferProgress
  cases lookupA st.transfers transferId <;> rfl

theorem lookupA_updateTransferStatus (st : ManagerState) (transferId : String)
    (s : TransferStatus) (msg : String) (now : Nat) :
    lookupA (st.updateTransferStatus transferId s msg now).transfers
        transferId =
      (lookupA st.transfers transferId).map (fun t =>
        { t with
          status := s
          errorMessage := if msg = "" then t.errorMessage else msg
          endTime := if s.isTerminal then now else t.endTime }) := by
  unfold ManagerState.updateTransferStatus
  cases hl : lookupA st.transfers transferId
  · simp [hl]
  · exact (lookupA_mapIte_self st.transfers transferId (fun t =>
      { t with
        status := s
        errorMessage := if msg = "" then t.errorMessage else msg
        endTime := if s.isTerminal then now else t.endTime })).trans
      (by rw [hl])

theorem lookupA_updateTransferProgress (st : ManagerState)
    (transferId : String) (bytes : Nat) :
    lookupA (st.updateTransferProgress transferId bytes).transfers
        transferId =
      (lookupA st.transfers transferId).map (fun t =>
        { t with
          bytesTransferred := bytes
          progress :=
            if t.fileSize > 0 then (bytes : Rat) / (t.fileSize : Rat) * 100
            else 100 }) := by
  unfold ManagerState.updateTransferProgress
  cases hl : lookupA st.transfers transferId
  · simp [hl]
  · exact (lookupA_mapIte_self st.transfers transferId (fun t =>
      { t with
        bytesTransferred := bytes
        progress :=
          if t.fileSize > 0 then (bytes : Rat) / (t.fileSize : Rat) * 100
          else 100 })).trans (by rw [hl])

/-- C1: the claimed status DAG requires that a terminal status is never
followed by any further status change; evaluating the handlers at the
failing input refutes this on the code: `cancelTransfer` puts the sample
transfer in the terminal `Canceled` status, and a subsequent
`TransferComplete{success=true}` from the peer makes
`processTransferComplete` (through `updateTransferStatus`, which assigns
the requested status unconditionally) overwrite it with `Completed`. -/
theorem c1_terminal_status_overwritten :
    ((lookupA sampleStateCanceled.transfers "t1").map (fun t => t.status) =
      some .Canceled) ∧
    TransferStatus.Canceled.isTerminal = true ∧
    ((lookupA sampleStateLateComplete.transfers "t1").map (fun t => t.status) =
      some .Completed) := by
  decide

/-- C4: evaluating the code at the failing input: the incoming sample
transfer is canceled at time 80 (setting `endTime := 80`), and a later
chunk-0 `FileData` message makes `processFileData` move the status back to
the non-terminal `InProgress` while `endTime` stays `80 > 0`, refuting
`end_time_ms > 0 ⇔ status terminal` on the reachable states of the code. -/
theorem c4_endTime_positive_with_nonterminal_status :
    ((lookupA inState4.transfers "t2").map (fun t => (t.status, t.endTime)) =
      some (.InProgress, 80)) ∧
    TransferStatus.InProgress.isTerminal = false := by
  decide

/-- C9 (counterexample): after the peer's `TransferCancel` the sample
incoming transfer is in the terminal `Canceled` status, yet its reassembly
buffer entry is still present in the map — `processTransferCancel` never
erases it, refuting the claim that the buffer is erased whenever the
transfer reaches a terminal status. -/
theorem c9_buffer_survives_cancel :
    ((lookupA inState3.transfers "t2").map (fun t => t.status) =
      some .Canceled) ∧
    TransferStatus.Canceled.isTerminal = true ∧
    lookupA inState3.transferData "t2" = some [[7], []] := by
  decide

/-- C2 (counterexample): the round trip fails for the `FileData` variant
even with an empty `data` vector, because `FileDataMessage::toJson` stores
`data` as a CBOR-encoded byte array (a JSON array of numbers) while
`FileDataMessage::fromJson` reads the field with `get<std::string>()`,
which raises a type error on an array. -/
theorem c2_fileData_roundTrip_fails :
    Protocol.deserialize (Protocol.serialize (Msg.fileData
      { transferId := "t", chunkIndex := 0, totalChunks := 1, data := [] })) =
      Except.error "type must be string for field data" := by
  rfl

/-- C2 (amended): `deserialize (serialize m) = m` holds for the
`TransferRequest`, `TransferResponse`, `TransferComplete` and
`TransferCancel` variants; for every `FileData` message deserialization of
the serialized form fails with a type error on the `data` field, because
`toJson` stores the CBOR bytes as a JSON array while `fromJson` expects a
string. -/
theorem c2_roundTrip_amended :
    (∀ m : TransferRequestMsg,
      Protocol.deserialize (Protocol.serialize (.request m)) =
        .ok (.request m)) ∧
    (∀ m : TransferResponseMsg,
      Protocol.deserialize (Protocol.serialize (.response m)) =
        .ok (.response m)) ∧
    (∀ m : TransferCompleteMsg,
      Protocol.deserialize (Protocol.serialize (.complete m)) =
        .ok (.complete m)) ∧
    (∀ m : TransferCancelMsg,
      Protocol.deserialize (Protocol.serialize (.cancel m)) =
        .ok (.cancel m)) ∧
    (∀ m : FileDataMsg,
      Protocol.deserialize (Protocol.serialize (.fileData m)) =
        Except.error "type must be string for field data") :=
  ⟨fun _ => rfl, fun _ => rfl, fun _ => rfl, fun _ => rfl, fun _ => rfl⟩

/-- C6: `cancelTransfer` returns `false` and leaves the manager unchanged
when the id is unknown or the transfer is already terminal; for a
non-terminal transfer it returns `true` and sets the status to `Canceled`
(recording the end time), regardless of whether sending the
`TransferCancel` message succeeded or threw (`sendThrows` is arbitrary in
every conjunct). -/
theorem c6_cancelTransfer_spec (st : ManagerState) (transferId : String)
    (sendThrows : Bool) (errText : String) (now : Nat)
    (hinit : st.initialized = true) :
    (lookupA st.transfers transferId = none →
      st.cancelTransfer transferId sendThrows errText now = (false, st)) ∧
    (∀ t, lookupA st.transfers transferId = some t →
      t.status.isTerminal = true →
      st.cancelTransfer transferId sendThrows errText now = (false, st)) ∧
    (∀ t, lookupA st.transfers transferId = some t →
      t.status.isTerminal = false →
      (st.cancelTransfer transferId sendThrows errText now).1 = true ∧
      (lookupA (st.cancelTransfer transferId sendThrows errText
          now).2.transfers transferId).map (fun u => (u.status, u.endTime)) =
        some (.Canceled, now)) := by
  refine ⟨fun hl => ?_, fun t hl hterm => ?_, fun t hl hterm => ?_⟩
  · unfold ManagerState.cancelTransfer
    simp [hinit, hl]
  · unfold ManagerState.cancelTransfer
    have hcond : t.status ≠ .InProgress ∧ t.status ≠ .Initializing ∧
        t.status ≠ .Waiting := by
      cases hs : t.status <;> simp_all [TransferStatus.isTerminal]
    simp [hinit, hl, hcond]
  · unfold ManagerState.cancelTransfer
    have hcond : ¬(t.status ≠ .InProgress ∧ t.status ≠ .Initializing ∧
        t.status ≠ .Waiting) := by
      cases hs : t.status <;> simp_all [TransferStatus.isTerminal]
    cases sendThrows <;>
      simp [hinit, hl, hcond, lookupA_updateTransferStatus,
        TransferStatus.isTerminal]

/-- Witness for C6: canceling the waiting sample transfer succeeds and
marks it `Canceled` at time 100; canceling an unknown id returns `false`
with the state unchanged. -/
theorem c6_cancelTransfer_witness :
    (sampleState0.cancelTransfer "t1" false "" 100).1 = true ∧
    (lookupA (sampleState0.cancelTransfer "t1" false "" 100).2.transfers
        "t1").map (fun u => (u.status, u.endTime)) =
      some (.Canceled, 100) ∧
    sampleState0.cancelTransfer "zz" false "" 100 = (false, sampleState0) := by
  have h := c6_cancelTransfer_spec sampleState0 "t1" false "" 100 rfl
  have h2 := c6_cancelTransfer_spec sampleState0 "zz" false "" 100 rfl
  exact ⟨(h.2.2 sampleOutgoing (by decide) (by decide)).1,
    (h.2.2 sampleOutgoing (by decide) (by decide)).2,
    h2.1 (by decide)⟩

/-- C7: `sendFile` returns the empty string and leaves the manager state
(and hence the transfer registry) unchanged when the peer id is not in the
discovery service's known-peer table, and likewise when the peer resolves
but the TCP connect fails (no registered transfer already uses the peer's
endpoint and `connectTcp` returned `false`). -/
theorem c7_sendFile_preflight (st : ManagerState) (peers : List PeerInfo)
    (peerId filePath fileInfoName : String) (fileInfoSize : Nat)
    (connectResult : Bool) (sendResult : Int) (newTransferId : String)
    (now : Nat) (hinit : st.initialized = true) :
    (peers.find? (fun p => p.id == peerId) = none →
      st.sendFile peers true peerId filePath fileInfoName fileInfoSize
        connectResult sendResult newTransferId now = ("", st)) ∧
    (∀ peer, peers.find? (fun p => p.id == peerId) = some peer →
      (∀ pr ∈ st.transfers,
        pr.2.peerAddress ≠ peer.ipAddress ++ ":" ++ toString peer.port) →
      connectResult = false →
      st.sendFile peers true peerId filePath fileInfoName fileInfoSize
        connectResult sendResult newTransferId now = ("", st)) := by
  refine ⟨fun hf => ?_, fun peer hf hne hcr => ?_⟩
  · unfold ManagerState.sendFile
    simp [hinit, hf]
  · unfold ManagerState.sendFile
    have hany : st.transfers.any
        (fun p => p.2.peerAddress == peer.ipAddress ++ ":" ++
          toString peer.port) = false := by
      rw [List.any_eq_false]
      intro x hx
      simpa using hne x hx
    simp [hinit, hf, hany, hcr]

/-- Witness for C7: with an empty peer table `sendFile` returns the empty
id and the sample state unchanged; with a known peer at a fresh endpoint
and a failed connect it does the same. -/
theorem c7_sendFile_witness :
    sampleState0.sendFile [] true "peer-a" "/tmp/f.bin" "f.bin" 4 false 0
      "t9" 100 = ("", sampleState0) ∧
    sampleState0.sendFile
      [{ id := "peer-a", name := "Alice", ipAddress := "10.0.0.9",
         port := 40001, platform := "linux", version := "1.0",
         lastSeen := 0 }] true "peer-a" "/tmp/f.bin" "f.bin" 4 false 0
      "t9" 100 = ("", sampleState0) := by
  have h1 := c7_sendFile_preflight sampleState0 [] "peer-a" "/tmp/f.bin"
    "f.bin" 4 false 0 "t9" 100 rfl
  have h2 := c7_sendFile_preflight sampleState0
    [{ id := "peer-a", name := "Alice", ipAddress := "10.0.0.9",
       port := 40001, platform := "linux", version := "1.0",
       lastSeen := 0 }] "peer-a" "/tmp/f.bin" "f.bin" 4 false 0 "t9" 100 rfl
  exact ⟨h1.1 (by decide),
    h2.2
      { id := "peer-a", name := "Alice", ipAddress := "10.0.0.9",
        port := 40001, platform := "linux", version := "1.0", lastSeen := 0 }
      (by decide) (by decide) rfl⟩

/-- C10: when sending the `TransferResponse` fails (`sendResult < 0`), the
newly registered incoming transfer is marked `Failed` with error message
"Failed to send transfer response" and the handler stops, independently of
the request callback's decision (`accepted` does not influence the
resulting state) and without touching the reassembly maps. -/
theorem c10_response_send_failure (st : ManagerState)
    (request : TransferRequestMsg) (endpoint : String) (accepted : Bool)
    (sendResult : Int) (now : Nat) (hsend : sendResult < 0) :
    ((lookupA (st.processTransferRequest request endpoint accepted sendResult
        now).transfers request.transferId).map
        (fun t => (t.status, t.errorMessage)) =
      some (.Failed, "Failed to send transfer response")) ∧
    st.processTransferRequest request endpoint accepted sendResult now =
      st.processTransferRequest request endpoint true sendResult now ∧
    (st.processTransferRequest request endpoint accepted sendResult
      now).transferData = st.transferData ∧
    (st.processTransferRequest request endpoint accepted sendResult
      now).transferChunksReceived = st.transferChunksReceived := by
  unfold ManagerState.processTransferRequest
  rw [if_pos hsend, if_pos hsend]
  refine ⟨?_, rfl, ?_, ?_⟩
  · rw [lookupA_updateTransferStatus, lookupA_setA_self]
    simp [TransferStatus.isTerminal]
  · rw [updateTransferStatus_transferData]
  · rw [updateTransferStatus_chunksReceived]

/-- Witness for C10: a rejected inbound request whose response send fails
with result −1 leaves the registered transfer `Failed` with the expected
message. -/
theorem c10_response_send_failure_witness :
    (lookupA (sampleState0.processTransferRequest inboundRequest
        "10.0.0.3:40000" false (-1) 99).transfers
        inboundRequest.transferId).map (fun t => (t.status, t.errorMessage)) =
      some (.Failed, "Failed to send transfer response") :=
  (c10_response_send_failure sampleState0 inboundRequest "10.0.0.3:40000"
    false (-1) 99 (by decide)).1

/-- C5: an uninterrupted run of the sender's chunking task over an
`n`-byte buffer emits exactly `ceil(n / 1048576)` `FileData` messages
(the count `k` satisfies `n ≤ k * chunkSize < n + chunkSize`), chunk `i`
carries the byte slice `[i*chunkSize, min((i+1)*chunkSize, n))` — of full
`chunkSize` length except possibly the last — and an empty buffer yields
no `FileData` message at all. -/
theorem c5_transferThreadChunks_spec (transferId : String)
    (fileData : List Nat) :
    (transferThreadChunks transferId fileData).length =
      (fileData.length + chunkSize - 1) / chunkSize ∧
    fileData.length ≤
      (transferThreadChunks transferId fileData).length * chunkSize ∧
    (transferThreadChunks transferId fileData).length * chunkSize <
      fileData.length + chunkSize ∧
    (∀ i, i < (transferThreadChunks transferId fileData).length →
      (transferThreadChunks transferId fileData)[i]? = some
        { transferId := transferId
          chunkIndex := i
          totalChunks := (transferThreadChunks transferId fileData).length
          data := (fileData.drop (i * chunkSize)).take
            (min ((i + 1) * chunkSize) fileData.length - i * chunkSize) }) ∧
    (∀ i, i < (transferThreadChunks transferId fileData).length →
      ((transferThreadChunks transferId fileData)[i]?).map
          (fun m => m.data.length) =
        some (min ((i + 1) * chunkSize) fileData.length - i * chunkSize)) ∧
    (∀ i, i + 1 < (transferThreadChunks transferId fileData).length →
      ((transferThreadChunks transferId fileData)[i]?).map
          (fun m => m.data.length) = some chunkSize) ∧
    (fileData.length = 0 → transferThreadChunks transferId fileData = []) := by
  have hc : 0 < chunkSize := by decide
  have hlen : (transferThreadChunks transferId fileData).length =
      (fileData.length + chunkSize - 1) / chunkSize := by
    simp [transferThreadChunks, totalChunksFor]
  have hdm := Nat.div_add_mod (fileData.length + chunkSize - 1) chunkSize
  rw [Nat.mul_comm] at hdm
  have hmod : (fileData.length + chunkSize - 1) % chunkSize < chunkSize :=
    Nat.mod_lt _ hc
  have hle : fileData.length ≤
      (fileData.length + chunkSize - 1) / chunkSize * chunkSize := by
    clear hlen
    omega
  have hlt : (fileData.length + chunkSize - 1) / chunkSize * chunkSize <
      fileData.length + chunkSize := by
    clear hlen
    omega
  have helem : ∀ i, i < (transferThreadChunks transferId fileData).length →
      (transferThreadChunks transferId fileData)[i]? = some
        { transferId := transferId
          chunkIndex := i
          totalChunks := (transferThreadChunks transferId fileData).length
          data := (fileData.drop (i * chunkSize)).take
            (min ((i + 1) * chunkSize) fileData.length - i * chunkSize) } := by
    intro i hi
    have hi' : i < totalChunksFor fileData.length := by
      simpa [transferThreadChunks] using hi
    have hmul : (i + 1) * chunkSize = i * chunkSize + chunkSize := by ring
    rw [show transferThreadChunks transferId fileData =
      (List.range (totalChunksFor fileData.length)).map (fun j =>
        { transferId := transferId
          chunkIndex := j
          totalChunks := totalChunksFor fileData.length
          data := chunkPayload fileData j }) from rfl]
    rw [List.getElem?_map, List.getElem?_range hi']
    simp only [Option.map_some', chunkPayload]
    rw [hmul]
    simp [totalChunksFor]
  have hub : ∀ i, i < (transferThreadChunks transferId fileData).length →
      (i + 1) * chunkSize ≤ fileData.length + chunkSize - 1 := by
    intro i hi
    rw [hlen] at hi
    exact (Nat.le_div_iff_mul_le hc).mp hi
  have hlength : ∀ i, i < (transferThreadChunks transferId fileData).length →
      ((transferThreadChunks transferId fileData)[i]?).map
          (fun m => m.data.length) =
        some (min ((i + 1) * chunkSize) fileData.length - i * chunkSize) := by
    intro i hi
    rw [helem i hi]
    simp only [Option.map_some']
    refine congrArg some ?_
    simp only [List.length_take, List.length_drop]
    omega
  refine ⟨hlen, ?_, ?_, helem, hlength, ?_, ?_⟩
  · rw [hlen]; exact hle
  · rw [hlen]; exact hlt
  · intro i hi
    have hb := hub (i + 1) hi
    have hi' : i < (transferThreadChunks transferId fileData).length := by
      omega
    rw [hlength i hi']
    have hmul : (i + 1) * chunkSize = i * chunkSize + chunkSize := by ring
    have hmul2 : (i + 1 + 1) * chunkSize =
        i * chunkSize + chunkSize + chunkSize := by ring
    refine congrArg some ?_
    clear hlen helem hub hlength hle hlt hi hi'
    omega
  · intro h0
    have hz : (transferThreadChunks transferId fileData).length = 0 := by
      rw [hlen, h0]
      exact Nat.div_eq_of_lt (by omega)
    exact List.length_eq_zero.mp hz

/-- Witness for C5: a 3-byte buffer yields a single chunk carrying the
whole buffer, and an empty buffer yields no messages. -/
theorem c5_transferThreadChunks_witness :
    (transferThreadChunks "w" [1, 2, 3]).length = 1 ∧
    (transferThreadChunks "w" [1, 2, 3])[0]? = some
      { transferId := "w", chunkIndex := 0, totalChunks := 1,
        data := [1, 2, 3] } ∧
    transferThreadChunks "x" [] = [] := by
  have h := c5_transferThreadChunks_spec "w" [1, 2, 3]
  have h0 := c5_transferThreadChunks_spec "x" ([] : List Nat)
  exact ⟨h.1.trans (by decide), (h.2.2.2.1 0 (by decide)).trans (by decide),
    h0.2.2.2.2.2.2 rfl⟩

theorem decrypt_append (P : CryptoPrimitives) (password : String)
    (salt iv ct tag : List Nat) (hs : salt.length = 8)
    (hiv : iv.length = 12) (htag : tag.length = 16) :
    Encryption.decrypt P (salt ++ iv ++ ct ++ tag) password =
      (match Encryption.deriveKeyAndIV P password salt with
       | none => none
       | some kp => P.gcmAuthDecrypt kp.1 iv tag ct) := by
  have hlen : (salt ++ iv ++ ct ++ tag).length = ct.length + 36 := by
    simp [hs, hiv, htag]
    omega
  have h1 : (salt ++ iv ++ ct ++ tag).take 8 = salt := by
    rw [show salt ++ iv ++ ct ++ tag = salt ++ (iv ++ (ct ++ tag)) by
      simp [List.append_assoc]]
    exact List.take_left' hs
  have h2 : ((salt ++ iv ++ ct ++ tag).drop 8).take Encryption.IV_SIZE = iv := by
    rw [show salt ++ iv ++ ct ++ tag = salt ++ (iv ++ (ct ++ tag)) by
      simp [List.append_assoc]]
    rw [List.drop_left' hs]
    exact List.take_left' hiv
  have h3 : (salt ++ iv ++ ct ++ tag).drop
      ((salt ++ iv ++ ct ++ tag).length - Encryption.TAG_SIZE) = tag := by
    rw [show salt ++ iv ++ ct ++ tag = (salt ++ iv ++ ct) ++ tag by
      simp [List.append_assoc]]
    apply List.drop_left'
    simp [hs, hiv, htag, Encryption.TAG_SIZE]
    omega
  have h4 : ((salt ++ iv ++ ct ++ tag).drop (8 + Encryption.IV_SIZE)).take
      ((salt ++ iv ++ ct ++ tag).length - (8 + Encryption.IV_SIZE) -
        Encryption.TAG_SIZE) = ct := by
    rw [show salt ++ iv ++ ct ++ tag = (salt ++ iv) ++ (ct ++ tag) by
      simp [List.append_assoc]]
    rw [List.drop_left' (by simp [hs, hiv, Encryption.IV_SIZE] :
      (salt ++ iv).length = 8 + Encryption.IV_SIZE)]
    apply List.take_left'
    simp [hs, hiv, htag, Encryption.TAG_SIZE, Encryption.IV_SIZE]
    omega
  unfold Encryption.decrypt
  rw [if_neg (by rw [hlen]; simp [Encryption.IV_SIZE, Encryption.TAG_SIZE])]
  dsimp only
  rw [h1, h2, h3, h4]
  cases Encryption.deriveKeyAndIV P password salt with
  | none => rfl
  | some kp => cases kp with | mk a b => rfl

/-- C3: whenever `Encryption::encrypt` succeeds on plaintext `p` with
password `pw` and the drawn 8-byte salt, the produced blob decrypts back to
exactly `p` under the same password (assuming the mbedTLS primitives
satisfy their contracts: PBKDF2 output length, GCM length preservation and
GCM round trip), and the blob has the layout
`salt(8) || iv(12) || ciphertext(|p|) || tag(16)` with key and IV produced
by PBKDF2-HMAC-SHA256 over 10000 iterations, split as key(32) ∥ iv(12). -/
theorem c3_encrypt_decrypt_roundTrip (P : CryptoPrimitives)
    (hkd : Pbkdf2LengthOk P) (hgl : GcmLengthOk P) (hrt : GcmRoundTripOk P)
    (plaintext : List Nat) (password : String) (salt : List Nat)
    (hsalt : salt.length = 8) (c : List Nat)
    (henc : Encryption.encrypt P plaintext password salt = some c) :
    Encryption.decrypt P c password = some plaintext ∧
    ∃ output ct tag,
      P.pbkdf2HmacSha256 password salt 10000
        (Encryption.KEY_SIZE + Encryption.IV_SIZE) = some output ∧
      (ct, tag) = P.gcmCryptAndTag (output.take Encryption.KEY_SIZE)
        ((output.drop Encryption.KEY_SIZE).take Encryption.IV_SIZE)
        plaintext ∧
      c = salt ++ (output.drop Encryption.KEY_SIZE).take Encryption.IV_SIZE ++
        ct ++ tag ∧
      salt.length = 8 ∧
      ((output.drop Encryption.KEY_SIZE).take Encryption.IV_SIZE).length =
        12 ∧
      ct.length = plaintext.length ∧ tag.length = 16 := by
  unfold Encryption.encrypt Encryption.deriveKeyAndIV at henc
  cases hpb : P.pbkdf2HmacSha256 password salt 10000
      (Encryption.KEY_SIZE + Encryption.IV_SIZE) with
  | none =>
    rw [hpb] at henc
    simp at henc
  | some output =>
    rw [hpb] at henc
    dsimp only at henc
    have hc : salt ++ (output.drop Encryption.KEY_SIZE).take
        Encryption.IV_SIZE ++
        (P.gcmCryptAndTag (output.take Encryption.KEY_SIZE)
          ((output.drop Encryption.KEY_SIZE).take Encryption.IV_SIZE)
          plaintext).1 ++
        (P.gcmCryptAndTag (output.take Encryption.KEY_SIZE)
          ((output.drop Encryption.KEY_SIZE).take Encryption.IV_SIZE)
          plaintext).2 = c :=
      Option.some.inj henc
    have hout : output.length = Encryption.KEY_SIZE + Encryption.IV_SIZE :=
      hkd _ _ _ _ _ hpb
    have hiv : ((output.drop Encryption.KEY_SIZE).take
        Encryption.IV_SIZE).length = 12 := by
      simp [hout, Encryption.KEY_SIZE, Encryption.IV_SIZE]
    have hct := (hgl (output.take Encryption.KEY_SIZE)
      ((output.drop Encryption.KEY_SIZE).take Encryption.IV_SIZE)
      plaintext).1
    have htag := (hgl (output.take Encryption.KEY_SIZE)
      ((output.drop Encryption.KEY_SIZE).take Encryption.IV_SIZE)
      plaintext).2
    subst hc
    constructor
    · rw [decrypt_append P password salt _ _ _ hsalt hiv htag]
      unfold Encryption.deriveKeyAndIV
      rw [hpb]
      dsimp only
      exact hrt (output.take Encryption.KEY_SIZE)
        ((output.drop Encryption.KEY_SIZE).take Encryption.IV_SIZE) plaintext
    · exact ⟨output,
        (P.gcmCryptAndTag (output.take Encryption.KEY_SIZE)
          ((output.drop Encryption.KEY_SIZE).take Encryption.IV_SIZE)
          plaintext).1,
        (P.gcmCryptAndTag (output.take Encryption.KEY_SIZE)
          ((output.drop Encryption.KEY_SIZE).take Encryption.IV_SIZE)
          plaintext).2,
        rfl, rfl, rfl, hsalt, hiv, hct, htag⟩

theorem toyCrypto_pbkdf2LengthOk : Pbkdf2LengthOk toyCrypto := by
  intro pw salt iters n out h
  have hout : out = List.replicate n 0 := by
    simpa [toyCrypto] using h.symm
  simp [hout]

theorem toyCrypto_gcmLengthOk : GcmLengthOk toyCrypto := by
  intro key iv pt
  constructor <;> simp [toyCrypto]

theorem toyCrypto_gcmRoundTripOk : GcmRoundTripOk toyCrypto := by
  intro key iv pt
  simp [toyCrypto]

/-- Witness for C3: with the concrete toy primitives, encrypting the bytes
`[1, 2, 3]` yields the blob `salt(8) || iv(12) || [1, 2, 3] || tag(16)`
and decrypting it returns the plaintext. -/
theorem c3_encrypt_decrypt_roundTrip_witness :
    Encryption.decrypt toyCrypto
      (List.replicate 8 0 ++ List.replicate 12 0 ++ [1, 2, 3] ++
        List.replicate 16 0) "pw" = some [1, 2, 3] ∧
    Encryption.encrypt toyCrypto [1, 2, 3] "pw" (List.replicate 8 0) =
      some (List.replicate 8 0 ++ List.replicate 12 0 ++ [1, 2, 3] ++
        List.replicate 16 0) := by
  have henc : Encryption.encrypt toyCrypto [1, 2, 3] "pw"
      (List.replicate 8 0) =
      some (List.replicate 8 0 ++ List.replicate 12 0 ++ [1, 2, 3] ++
        List.replicate 16 0) := by decide
  exact ⟨(c3_encrypt_decrypt_roundTrip toyCrypto toyCrypto_pbkdf2LengthOk
    toyCrypto_gcmLengthOk toyCrypto_gcmRoundTripOk [1, 2, 3] "pw"
    (List.replicate 8 0) (by decide) _ henc).1, henc⟩

/-- C8: `Encryption::decrypt` reports failure (and produces no plaintext)
whenever the blob is shorter than 36 bytes, and whenever GCM
authentication rejects the embedded tag under the key derived from the
password and the embedded salt; the model is a total function, matching
the source's catch-all that turns exceptions into `false`. -/
theorem c8_decrypt_failure (P : CryptoPrimitives) (blob : List Nat)
    (password : String) :
    (blob.length < 36 → Encryption.decrypt P blob password = none) ∧
    ((∀ key dIV, Encryption.deriveKeyAndIV P password (blob.take 8) =
        some (key, dIV) →
      P.gcmAuthDecrypt key ((blob.drop 8).take Encryption.IV_SIZE)
        (blob.drop (blob.length - Encryption.TAG_SIZE))
        ((blob.drop (8 + Encryption.IV_SIZE)).take
          (blob.length - (8 + Encryption.IV_SIZE) - Encryption.TAG_SIZE)) =
        none) →
      Encryption.decrypt P blob password = none) := by
  constructor
  · intro h
    unfold Encryption.decrypt
    rw [if_pos (by simpa [Encryption.IV_SIZE, Encryption.TAG_SIZE] using h)]
  · intro h
    unfold Encryption.decrypt
    by_cases hlen : blob.length < 8 + Encryption.IV_SIZE + Encryption.TAG_SIZE
    · rw [if_pos hlen]
    · rw [if_neg hlen]
      dsimp only
      cases hkd : Encryption.deriveKeyAndIV P password (blob.take 8) with
      | none => rfl
      | some kp =>
        cases kp with
        | mk key dIV => exact h key dIV hkd

/-- Witness for C8: a 10-byte blob is rejected for being too short, and a
40-byte blob whose tag region does not authenticate under the toy
primitives is rejected by the GCM check. -/
theorem c8_decrypt_failure_witness :
    Encryption.decrypt toyCrypto (List.replicate 10 0) "pw" = none ∧
    Encryption.decrypt toyCrypto (List.replicate 40 1) "pw" = none := by
  refine ⟨(c8_decrypt_failure toyCrypto (List.replicate 10 0) "pw").1
    (by decide),
    (c8_decrypt_failure toyCrypto (List.replicate 40 1) "pw").2 ?_⟩
  intro key dIV h
  simp [Encryption.deriveKeyAndIV, toyCrypto] at h
  obtain ⟨h1, h2⟩ := h
  subst h1
  decide

/-- C9 (amended): reassembly slots are not write-once — a duplicate chunk
index overwrites the slot (shown concretely: chunk 1 arriving twice
rewrites slot 1 from `[5]` to `[7]` while the received counter keeps
growing) — and the buffer entry is erased exactly by `processFileData`
itself: on its error path (missing buffer or out-of-range index) and when
the received counter reaches `total_chunks` (whatever the outcome of the
write and of the completion send); terminal statuses reached through other
handlers leave the buffer in place. -/
theorem c9_reassembly_amended :
    (∀ (st : ManagerState) (fd : FileDataMsg) (name : String)
      (writeOk : Bool) (sendResult : Int) (now : Nat),
      (lookupA st.transfers fd.transferId).map (fun t => t.direction) =
        some .Incoming →
      fd.chunkIndex ≠ 0 →
      lookupA st.transferData fd.transferId = none →
      lookupA (st.processFileData fd name writeOk sendResult
        now).transferData fd.transferId = none) ∧
    (∀ (st : ManagerState) (fd : FileDataMsg) (name : String)
      (writeOk : Bool) (sendResult : Int) (now : Nat)
      (slots : List (List Nat)),
      (lookupA st.transfers fd.transferId).map (fun t => t.direction) =
        some .Incoming →
      fd.chunkIndex ≠ 0 →
      lookupA st.transferData fd.transferId = some slots →
      slots.length ≤ fd.chunkIndex →
      lookupA (st.processFileData fd name writeOk sendResult
        now).transferData fd.transferId = none) ∧
    (∀ (st : ManagerState) (fd : FileDataMsg) (name : String)
      (writeOk : Bool) (sendResult : Int) (now : Nat)
      (slots : List (List Nat)),
      (lookupA st.transfers fd.transferId).map (fun t => t.direction) =
        some .Incoming →
      fd.chunkIndex ≠ 0 →
      lookupA st.transferData fd.transferId = some slots →
      fd.chunkIndex < slots.length →
      (lookupA st.transferChunksReceived fd.transferId).getD 0 + 1 =
        slots.length →
      lookupA (st.processFileData fd name writeOk sendResult
        now).transferData fd.transferId = none) ∧
    (lookupA dupState2.transferData "t3" = some [[1], [5], [], []] ∧
      lookupA dupState3.transferData "t3" = some [[1], [7], [], []] ∧
      lookupA dupState3.transferChunksReceived "t3" = some 3) := by
  refine ⟨?_, ?_, ?_, by decide⟩
  · intro st fd name writeOk sendResult now hdir hne hbuf
    cases hl : lookupA st.transfers fd.transferId with
    | none => rw [hl] at hdir; simp at hdir
    | some t =>
      rw [hl] at hdir
      have ht : t.direction = .Incoming := by simpa using hdir
      unfold ManagerState.processFileData
      rw [hl]
      simp [ht, hne, hbuf, ManagerState.fileDataErrorCleanup,
        updateTransferStatus_transferData, lookupA_eraseA_self]
  · intro st fd name writeOk sendResult now slots hdir hne hbuf hoob
    cases hl : lookupA st.transfers fd.transferId with
    | none => rw [hl] at hdir; simp at hdir
    | some t =>
      rw [hl] at hdir
      have ht : t.direction = .Incoming := by simpa using hdir
      unfold ManagerState.processFileData
      rw [hl]
      simp [ht, hne, hbuf, hoob, ge_iff_le,
        ManagerState.fileDataErrorCleanup,
        updateTransferStatus_transferData, lookupA_eraseA_self]
  · intro st fd name writeOk sendResult now slots hdir hne hbuf hin hcnt
    cases hl : lookupA st.transfers fd.transferId with
    | none => rw [hl] at hdir; simp at hdir
    | some t =>
      rw [hl] at hdir
      have ht : t.direction = .Incoming := by simpa using hdir
      unfold ManagerState.processFileData
      rw [hl]
      simp [ht, hne, hbuf, Nat.not_le.mpr hin]
      unfold ManagerState.fileDataAfterStore
      simp only [lookupA_setA_self, Option.getD_some, Option.map_some',
        List.length_set]
      rw [if_pos hcnt]
      cases writeOk with
      | false =>
        simp [ManagerState.fileDataErrorCleanup,
          updateTransferStatus_transferData,
          updateTransferProgress_transferData, lookupA_eraseA_self]
      | true =>
        by_cases hs : sendResult < 0
        · simp [hs, updateTransferStatus_transferData,
            updateTransferProgress_transferData, lookupA_eraseA_self]
        · simp [hs, updateTransferStatus_transferData,
            updateTransferProgress_transferData, lookupA_eraseA_self]

/-- Witness for C9 (amended): a chunk with index 1 arriving before any
buffer exists takes the error path and leaves no buffer entry, and the
chunk that makes the received counter reach `total_chunks` erases the
buffer entry. -/
theorem c9_reassembly_amended_witness :
    lookupA (dupState0.processFileData
      { transferId := "t3", chunkIndex := 1, totalChunks := 4, data := [5] }
      "h.bin" true 0 99).transferData "t3" = none ∧
    lookupA (inState2.processFileData
      { transferId := "t2", chunkIndex := 1, totalChunks := 2, data := [8] }
      "g.bin" true 0 99).transferData "t2" = none := by
  exact ⟨c9_reassembly_amended.1 dupState0
      { transferId := "t3", chunkIndex := 1, totalChunks := 4, data := [5] }
      "h.bin" true 0 99 (by decide) (by decide) (by decide),
    c9_reassembly_amended.2.2.1 inState2
      { transferId := "t2", chunkIndex := 1, totalChunks := 2, data := [8] }
      "g.bin" true 0 99 [[7], []] (by decide) (by decide) (by decide)
      (by decide) (by decide)⟩
